import Mathlib

/-!
Verification development for the ATM-Booth-Finder repository (src/app.py).

The file shallowly embeds the data model and the two request handlers of the
Flask application:

  - the `ATM` SQLAlchemy model (a table of point-of-interest records),
  - `generate_mock_atms` (synthetic record generation around a center point),
  - `get_atms` (the `/api/atms` list handler with its 15-minute
    freshness-gated wipe-then-insert refresh policy),
  - `get_atm` (the `/api/atms/<id>` detail handler).

Modelling conventions:
  - Float coordinates are modelled as rationals: every IEEE-754 double is a
    rational number, and the arithmetic performed by the code (addition,
    multiplication, division) maps to exact rational arithmetic.
  - The value of `math.cos (math.radians lat)` is an oracle input
    (`cos_rad_lat`, respectively `Env.cos_fn`): float trigonometry has no
    exact rational counterpart, so facts about its value (such as its
    approximate value at latitude 89.999) enter as hypotheses or as concrete
    rationals taken from the float computation.
  - The outputs of the `random` module are explicit inputs (`Env.num_atms`,
    `AtmRand`), constrained by validity predicates that state exactly the
    contracts of `random.random`, `random.randint` and `random.sample`.
  - Timestamps (`datetime.utcnow`) are natural numbers, thought of as
    microseconds since the epoch (the resolution of `datetime`); the clock
    readings taken during one request are explicit inputs (`Env.now` for the
    threshold computation, `Env.ins_times i` for the i-th insert).
-/

namespace AtmFinder

/-- A stored record of the `ATM` SQLAlchemy model (src/app.py lines 43-50):
integer primary key assigned on insert, display name, coordinates in degrees,
address, service-tag list, and the `fetched_at` timestamp. -/
structure Atm where
  id : ℕ
  name : String
  lat : ℚ
  lng : ℚ
  address : String
  services : List String
  fetched_at : ℕ
deriving DecidableEq

/-- A generated ATM dictionary as built by `generate_mock_atms`
(src/app.py lines 678-684): it carries no id and no `fetched_at`; those are
added when the dictionary is inserted into the store. -/
structure GenAtm where
  name : String
  lat : ℚ
  lng : ℚ
  address : String
  services : List String
deriving DecidableEq, Inhabited

/-- `DEFAULT_RADIUS = 1000` (src/app.py line 69). -/
def DEFAULT_RADIUS : ℤ := 1000

/-- `timedelta(minutes=15)` (src/app.py line 717), in microseconds. -/
def FIFTEEN_MINUTES : ℕ := 900000000

/-- `bank_names` (src/app.py lines 642-646). -/
def bank_names : List String :=
  ["United Bank", "Citizens Financial", "First National", "Metro Credit Union",
   "Community Bank", "Urban Trust", "Heritage Bank", "Liberty Financial",
   "Capital One", "Chase", "Wells Fargo", "Bank of America"]

/-- `street_names` (src/app.py lines 649-652). -/
def street_names : List String :=
  ["Main St", "Oak Ave", "Maple Rd", "Broadway", "Park Ave",
   "Washington St", "Market St", "State St", "Water St", "Commerce Way"]

/-- `all_services` (src/app.py lines 655-658): the fixed 6-entry service
vocabulary. -/
def all_services : List String :=
  ["Cash Withdrawal", "Cash Deposit", "Cardless Withdrawal",
   "Balance Inquiry", "Check Deposit", "Bill Payment"]

/-- The outputs drawn from the `random` module while generating one record
(src/app.py lines 663-676), given as oracle inputs:
`u_lat`, `u_lng` are the two `random.random()` draws, `bank_idx` and
`street_idx` are the indices drawn by `random.choice`, `street_number` is the
`random.randint(1, 999)` draw, `service_count` is the `random.randint(2, 4)`
draw, and `sample_pick` supplies the index draws made by `random.sample`. -/
structure AtmRand where
  u_lat : ℚ
  u_lng : ℚ
  bank_idx : ℕ
  street_number : ℕ
  street_idx : ℕ
  service_count : ℕ
  sample_pick : ℕ → ℕ

/-- The range contracts of the `random` module calls behind `AtmRand`:
`random.random()` returns a float in `[0, 1)`, `random.randint(1, 999)`
returns an integer in `[1, 999]`, and `random.randint(2, 4)` returns an
integer in `[2, 4]`. -/
def AtmRand.Valid (r : AtmRand) : Prop :=
  0 ≤ r.u_lat ∧ r.u_lat < 1 ∧ 0 ≤ r.u_lng ∧ r.u_lng < 1 ∧
  1 ≤ r.street_number ∧ r.street_number ≤ 999 ∧
  2 ≤ r.service_count ∧ r.service_count ≤ 4

/-- Model of `random.sample(l, k)` (src/app.py line 676): selection sampling
without replacement. At each step one index into the remaining population is
drawn (`pick`, taken modulo the current population size), the element at that
index is emitted, and it is removed from the population before the next draw.
This reproduces the contract of `random.sample`: `k` distinct positions of
the population, in some order. -/
def sample {α : Type} : ℕ → List α → (ℕ → ℕ) → List α
  | 0, _, _ => []
  | _ + 1, [], _ => []
  | k + 1, x :: xs, pick =>
      let l := x :: xs
      let i := pick 0 % l.length
      l.getD i x :: sample k (l.eraseIdx i) (fun n => pick (n + 1))

/-- Embedding of `generate_mock_atms` (src/app.py lines 620-687).
`cos_rad_lat` is the oracle value of `math.cos (math.radians lat)`; note that
the Python code divides by `111000 * abs(cos_rad_lat)` with no guard, and for
the float outputs of `math.cos` the divisor is never exactly zero. `rand i`
supplies the random draws for the i-th record. -/
def generate_mock_atms (lat lng radius cos_rad_lat : ℚ) (count : ℕ)
    (rand : ℕ → AtmRand) : List GenAtm :=
  let radius_lat := radius / 111000
  let radius_lng := radius / (111000 * |cos_rad_lat|)
  (List.range count).map fun i =>
    let r := rand i
    let random_lat := lat + (r.u_lat * 2 - 1) * radius_lat
    let random_lng := lng + (r.u_lng * 2 - 1) * radius_lng
    let bank := bank_names.getD (r.bank_idx % bank_names.length) ""
    let street := street_names.getD (r.street_idx % street_names.length) ""
    { name := bank ++ " ATM",
      lat := random_lat,
      lng := random_lng,
      address := toString r.street_number ++ " " ++ street,
      services := sample r.service_count all_services r.sample_pick }

/-- A query-string parameter as seen by `request.args.get`: absent, a string
parsing to the numeric value `x`, or a string on which `float`/`int` raises
`ValueError`. -/
inductive Param (α : Type) where
  | missing
  | num (x : α)
  | malformed
deriving DecidableEq

/-- `float(request.args.get(name, dflt))` respectively
`int(request.args.get(name, dflt))` (src/app.py lines 712-714): an absent
parameter yields the default, a well-formed one yields its value, and a
malformed one raises (`none`). -/
def Param.parse {α : Type} (dflt : α) : Param α → Option α
  | .missing => some dflt
  | .num x => some x
  | .malformed => none

/-- The three query parameters of a `/api/atms` request. -/
structure Request where
  lat : Param ℚ
  lng : Param ℚ
  radius : Param ℤ
deriving DecidableEq

/-- A request none of whose present parameters is malformed, so that the
three `float`/`int` conversions succeed. -/
def Request.WellFormed (r : Request) : Prop :=
  r.lat ≠ Param.malformed ∧ r.lng ≠ Param.malformed ∧ r.radius ≠ Param.malformed

instance (r : Request) : Decidable r.WellFormed := by
  unfold Request.WellFormed
  infer_instance

/-- The latitude value the handler computes: parameter value, or 0. -/
def Request.latVal (r : Request) : ℚ := (r.lat.parse 0).getD 0

/-- The longitude value the handler computes: parameter value, or 0. -/
def Request.lngVal (r : Request) : ℚ := (r.lng.parse 0).getD 0

/-- The radius value the handler computes: parameter value, or 1000. -/
def Request.radiusVal (r : Request) : ℤ :=
  (r.radius.parse DEFAULT_RADIUS).getD DEFAULT_RADIUS

/-- The per-request environment: the clock readings and random draws consumed
by one execution of the `get_atms` handler. `now` is `datetime.utcnow()` at
the threshold computation (line 717), `num_atms` is `random.randint(5, 15)`
(line 726), `rand` supplies the draws of `generate_mock_atms`, `ins_times i`
is `datetime.utcnow()` at the i-th insert (line 743), and `cos_fn` is the
oracle for `lat ↦ math.cos (math.radians lat)`. -/
structure Env where
  now : ℕ
  num_atms : ℕ
  rand : ℕ → AtmRand
  ins_times : ℕ → ℕ
  cos_fn : ℚ → ℚ

/-- The response of the `/api/atms` endpoint: `200 ` with a record list, or
`500` with an error body. -/
inductive AtmsResponse where
  | ok (atms : List Atm)
  | serverError
deriving DecidableEq

/-- The response of the `/api/atms/<id>` endpoint: `200` with the record, or
a status code with an error message body. -/
inductive DetailResponse where
  | ok (atm : Atm)
  | err (status : ℕ) (msg : String)
deriving DecidableEq

/-- The insert loop of the cache-miss path (src/app.py lines 736-747): each
generated dictionary becomes a row; after `ATM.query.delete()` SQLite assigns
the rowids 1, 2, ..., n to the inserted rows in order, and the i-th row
receives `fetched_at = datetime.utcnow()` read at its insert (`ins_times i`). -/
def insertBatch (batch : List GenAtm) (ins_times : ℕ → ℕ) : List Atm :=
  batch.enum.map fun p =>
    { id := p.1 + 1,
      name := p.2.name,
      lat := p.2.lat,
      lng := p.2.lng,
      address := p.2.address,
      services := p.2.services,
      fetched_at := ins_times p.1 }

/-- Embedding of the `get_atms` handler (src/app.py lines 697-762), with one
fault-injection point: `insert_commit_fails` models the second
`db.session.commit()` (line 747) raising. At that point the
`ATM.query.delete()` of line 732 has already been committed in its own
transaction (line 733), so the store is empty, the pending inserts are lost,
and the `except` clause returns the 500 error response. All other raises
(the `float`/`int` conversions of lines 712-714) are modelled by the parse
match. `get_atms` below is the normal, fault-free execution. -/
def get_atms_fault (env : Env) (req : Request) (store : List Atm)
    (insert_commit_fails : Bool) : AtmsResponse × List Atm :=
  match req.lat.parse 0, req.lng.parse 0, req.radius.parse DEFAULT_RADIUS with
  | some lat, some lng, some radius =>
      let fifteen_mins_ago := env.now - FIFTEEN_MINUTES
      let fresh_atms := store.filter fun a => decide (fifteen_mins_ago ≤ a.fetched_at)
      if fresh_atms.isEmpty then
        let atm_data := generate_mock_atms lat lng (radius : ℚ) (env.cos_fn lat)
            env.num_atms env.rand
        if atm_data.isEmpty then
          (AtmsResponse.ok store, store)
        else if insert_commit_fails then
          (AtmsResponse.serverError, [])
        else
          let newStore := insertBatch atm_data env.ins_times
          (AtmsResponse.ok newStore, newStore)
      else
        (AtmsResponse.ok fresh_atms, store)
  | _, _, _ => (AtmsResponse.serverError, store)

/-- The `get_atms` handler (src/app.py lines 697-762) under normal, fault-free
execution: parse the three parameters (defaulting absent ones, raising on
malformed ones), query the records fetched within the last 15 minutes, and
either return those untouched (cache hit) or wipe the store, insert a freshly
generated batch and return it (cache miss). -/
def get_atms (env : Env) (req : Request) (store : List Atm) :
    AtmsResponse × List Atm :=
  get_atms_fault env req store false

/-- Embedding of the `get_atm` detail handler (src/app.py lines 765-785):
primary-key lookup, `404` with body `error: "ATM not found"` when absent. -/
def get_atm (atm_id : ℕ) (store : List Atm) : DetailResponse :=
  match store.find? (fun a => a.id == atm_id) with
  | some atm => DetailResponse.ok atm
  | none => DetailResponse.err 404 "ATM not found"

/-- A process lifetime: the store produced by a sequence of `/api/atms`
requests, each with its own environment, starting from `store`. -/
def run_requests (evs : List (Env × Request)) (store : List Atm) : List Atm :=
  evs.foldl (fun s er => (get_atms er.1 er.2 s).2) store

/-- A store that is exactly the inserted output of one run of the generation
algorithm: the shape every refresh leaves behind. -/
def IsRefreshBatch (store : List Atm) : Prop :=
  ∃ lat lng radius cos_rad_lat count rand ins_times,
    store = insertBatch (generate_mock_atms lat lng radius cos_rad_lat count rand)
      ins_times

/-- A fixed draw of the `random` module for concrete evaluations: both
uniform draws 0, bank index 0, street number 1, street index 0, two
services, all sample picks 0. -/
def rand0 : AtmRand :=
  { u_lat := 0, u_lng := 0, bank_idx := 0, street_number := 1,
    street_idx := 0, service_count := 2, sample_pick := fun _ => 0 }

/-- A fixed environment for concrete evaluations: clock at 2000000000 μs,
5 records, constant draws, cosine oracle 1 (equator). -/
def env0 : Env :=
  { now := 2000000000, num_atms := 5, rand := fun _ => rand0,
    ins_times := fun _ => 2000000000, cos_fn := fun _ => 1 }

/-- An environment whose clock ticks one microsecond before the last of the
five inserts: the batch it writes carries two distinct `fetched_at` values. -/
def env1 : Env :=
  { now := 2000000000, num_atms := 5, rand := fun _ => rand0,
    ins_times := fun i => if i = 4 then 2000000001 else 2000000000,
    cos_fn := fun _ => 1 }

/-- The environment of a second request arriving exactly 15 minutes after
the last insert of `env1`: its freshness threshold falls strictly between
the two `fetched_at` values of the stored batch. -/
def env2 : Env :=
  { env1 with now := 2900000001 }

/-- A later environment whose freshness window still covers `freshStore`. -/
def envLater : Env :=
  { env0 with now := 2500000000 }

/-- The float64 value of `math.cos(math.radians(89.999))` is about
1.7453e-5; this environment feeds that value to the cosine oracle. -/
def envPolar : Env :=
  { env0 with cos_fn := fun _ => 17453 / 1000000000 }

/-- A request with all three parameters present and zero radius. -/
def req0 : Request := ⟨Param.num 0, Param.num 0, Param.num 0⟩

/-- A request centered at latitude 89.999 with radius 1000. -/
def reqPolar : Request := ⟨Param.num (89999 / 1000), Param.num 0, Param.num 1000⟩

/-- A one-record store whose record is stale relative to `env0.now`. -/
def staleStore : List Atm :=
  [{ id := 1, name := "United Bank ATM", lat := 0, lng := 0,
     address := "1 Main St", services := ["Cash Withdrawal", "Cash Deposit"],
     fetched_at := 0 }]

/-- A one-record store whose record is fresh relative to `env0.now` and
`envLater.now`. -/
def freshStore : List Atm :=
  [{ id := 1, name := "United Bank ATM", lat := 0, lng := 0,
     address := "1 Main St", services := ["Cash Withdrawal", "Cash Deposit"],
     fetched_at := 2000000000 }]

/-- The record the generation algorithm produces from the draw `rand0` at
center (0, 0) with radius 0. -/
def genAtm0 : GenAtm :=
  { name := "United Bank ATM", lat := 0, lng := 0, address := "1 Main St",
    services := ["Cash Withdrawal", "Cash Deposit"] }

theorem sample_length {α : Type} (k : ℕ) (l : List α) (pick : ℕ → ℕ) :
    (sample k l pick).length = min k l.length := by
  induction k generalizing l pick with
  | zero => simp [sample]
  | succ k ih =>
    cases l with
    | nil => simp [sample]
    | cons x xs =>
      simp only [sample, List.length_cons]
      rw [ih, List.length_eraseIdx]
      simp only [List.length_cons]
      have h : pick 0 % (xs.length + 1) < xs.length + 1 :=
        Nat.mod_lt _ (Nat.succ_pos _)
      rw [if_pos h]
      omega

theorem sample_subset {α : Type} (k : ℕ) (l : List α) (pick : ℕ → ℕ) :
    ∀ a ∈ sample k l pick, a ∈ l := by
  induction k generalizing l pick with
  | zero => simp [sample]
  | succ k ih =>
    cases l with
    | nil => simp [sample]
    | cons x xs =>
      intro a ha
      simp only [sample, List.mem_cons] at ha
      rcases ha with h | h
      · have hlt : (pick 0 % (x :: xs).length) < (x :: xs).length :=
          Nat.mod_lt _ (by simp)
        rw [List.getD_eq_getElem _ _ hlt] at h
        exact h ▸ List.getElem_mem hlt
      · exact (List.eraseIdx_sublist (x :: xs) _).subset (ih _ _ a h)

theorem getElem_not_mem_eraseIdx {α : Type} {l : List α} (h : l.Nodup)
    (i : ℕ) (hi : i < l.length) : l[i] ∉ l.eraseIdx i := by
  intro hmem
  rw [List.mem_eraseIdx_iff_getElem] at hmem
  obtain ⟨j, hj, hne, hEq⟩ := hmem
  exact hne (h.getElem_inj_iff.mp hEq)

theorem sample_nodup {α : Type} (k : ℕ) (l : List α) (pick : ℕ → ℕ)
    (h : l.Nodup) : (sample k l pick).Nodup := by
  induction k generalizing l pick with
  | zero => simp [sample]
  | succ k ih =>
    cases l with
    | nil => simp [sample]
    | cons x xs =>
      simp only [sample]
      have hlt : (pick 0 % (x :: xs).length) < (x :: xs).length :=
        Nat.mod_lt _ (by simp)
      rw [List.getD_eq_getElem _ _ hlt]
      refine List.nodup_cons.mpr ⟨?_, ih _ _ ((List.eraseIdx_sublist _ _).nodup h)⟩
      intro hmem
      exact getElem_not_mem_eraseIdx h _ hlt (sample_subset _ _ _ _ hmem)

theorem generate_mock_atms_length (lat lng radius c : ℚ) (count : ℕ)
    (rand : ℕ → AtmRand) :
    (generate_mock_atms lat lng radius c count rand).length = count := by
  simp [generate_mock_atms]

theorem generate_mock_atms_ne_nil {lat lng radius c : ℚ} {count : ℕ}
    {rand : ℕ → AtmRand} (h : 0 < count) :
    generate_mock_atms lat lng radius c count rand ≠ [] :=
  List.ne_nil_of_length_pos (by rw [generate_mock_atms_length]; exact h)

theorem insertBatch_length (batch : List GenAtm) (ins_times : ℕ → ℕ) :
    (insertBatch batch ins_times).length = batch.length := by
  simp [insertBatch, List.enum_length]

theorem insertBatch_ids (batch : List GenAtm) (ins_times : ℕ → ℕ) :
    (insertBatch batch ins_times).map Atm.id =
      (List.range batch.length).map (fun n => n + 1) := by
  rw [insertBatch, List.map_map, ← List.enum_map_fst batch, List.map_map]
  rfl

theorem insertBatch_ids_nodup (batch : List GenAtm) (ins_times : ℕ → ℕ) :
    ((insertBatch batch ins_times).map Atm.id).Nodup := by
  rw [insertBatch_ids]
  exact (List.nodup_range _).map (fun a b h => by omega)

theorem Request.parse_wf (req : Request) (h : req.WellFormed) :
    req.lat.parse 0 = some req.latVal ∧ req.lng.parse 0 = some req.lngVal ∧
    req.radius.parse DEFAULT_RADIUS = some req.radiusVal := by
  obtain ⟨h1, h2, h3⟩ := h
  refine ⟨?_, ?_, ?_⟩
  · cases hx : req.lat <;> simp_all [Param.parse, Request.latVal]
  · cases hx : req.lng <;> simp_all [Param.parse, Request.lngVal]
  · cases hx : req.radius <;> simp_all [Param.parse, Request.radiusVal]

theorem get_atms_malformed (env : Env) (req : Request) (store : List Atm)
    (h : ¬ req.WellFormed) :
    get_atms env req store = (AtmsResponse.serverError, store) := by
  obtain ⟨pl, pg, pr⟩ := req
  cases pl <;> cases pg <;> cases pr <;>
    simp_all [Request.WellFormed, get_atms, get_atms_fault, Param.parse]

theorem get_atms_hit (env : Env) (req : Request) (store : List Atm)
    (hw : req.WellFormed) (h0 : store ≠ [])
    (hfresh : ∀ a ∈ store, env.now - FIFTEEN_MINUTES ≤ a.fetched_at) :
    get_atms env req store = (AtmsResponse.ok store, store) := by
  obtain ⟨e1, e2, e3⟩ := req.parse_wf hw
  have hfil : store.filter
      (fun a => decide (env.now - FIFTEEN_MINUTES ≤ a.fetched_at)) = store :=
    List.filter_eq_self.mpr fun a ha => decide_eq_true (hfresh a ha)
  unfold get_atms get_atms_fault
  simp only [e1, e2, e3, hfil]
  rw [if_neg (by simpa [List.isEmpty_iff] using h0)]

theorem get_atms_miss (env : Env) (req : Request) (store : List Atm)
    (hw : req.WellFormed) (hn : 0 < env.num_atms)
    (hmiss : ∀ a ∈ store, a.fetched_at < env.now - FIFTEEN_MINUTES) :
    get_atms env req store =
      (AtmsResponse.ok (insertBatch (generate_mock_atms req.latVal req.lngVal
          (req.radiusVal : ℚ) (env.cos_fn req.latVal) env.num_atms env.rand)
          env.ins_times),
       insertBatch (generate_mock_atms req.latVal req.lngVal (req.radiusVal : ℚ)
          (env.cos_fn req.latVal) env.num_atms env.rand) env.ins_times) := by
  obtain ⟨e1, e2, e3⟩ := req.parse_wf hw
  have hfil : store.filter
      (fun a => decide (env.now - FIFTEEN_MINUTES ≤ a.fetched_at)) = [] := by
    rw [List.filter_eq_nil_iff]
    intro a ha
    simpa using Nat.not_le.mpr (hmiss a ha)
  unfold get_atms get_atms_fault
  simp only [e1, e2, e3, hfil, List.isEmpty_nil, eq_self_iff_true, if_true]
  rw [if_neg (by simpa [List.isEmpty_iff] using generate_mock_atms_ne_nil hn)]
  rfl

theorem get_atms_store_cases (env : Env) (req : Request) (store : List Atm) :
    (get_atms env req store).2 = store ∨ IsRefreshBatch (get_atms env req store).2 := by
  by_cases hw : req.WellFormed
  · obtain ⟨e1, e2, e3⟩ := req.parse_wf hw
    unfold get_atms get_atms_fault
    simp only [e1, e2, e3]
    by_cases h1 : (store.filter
        (fun a => decide (env.now - FIFTEEN_MINUTES ≤ a.fetched_at))).isEmpty = true
    · rw [if_pos h1]
      by_cases h2 : (generate_mock_atms req.latVal req.lngVal (req.radiusVal : ℚ)
          (env.cos_fn req.latVal) env.num_atms env.rand).isEmpty = true
      · rw [if_pos h2]
        exact Or.inl rfl
      · rw [if_neg h2]
        exact Or.inr ⟨_, _, _, _, _, _, _, rfl⟩
    · rw [if_neg h1]
      exact Or.inl rfl
  · rw [get_atms_malformed env req store hw]
    exact Or.inl rfl

theorem run_requests_inv (evs : List (Env × Request)) :
    run_requests evs [] = [] ∨ IsRefreshBatch (run_requests evs []) := by
  suffices h : ∀ store, (store = [] ∨ IsRefreshBatch store) →
      (run_requests evs store = [] ∨ IsRefreshBatch (run_requests evs store)) from
    h [] (Or.inl rfl)
  induction evs with
  | nil => intro store hs; simpa [run_requests] using hs
  | cons e rest ih =>
    intro store hs
    have hstep := get_atms_store_cases e.1 e.2 store
    have hrw : run_requests (e :: rest) store =
        run_requests rest (get_atms e.1 e.2 store).2 := by
      simp [run_requests]
    rw [hrw]
    apply ih
    rcases hstep with h | h
    · rw [h]; exact hs
    · exact Or.inr h

theorem find?_id_of_mem {store : List Atm} {a : Atm}
    (hnd : (store.map Atm.id).Nodup) (ha : a ∈ store) :
    store.find? (fun b => b.id == a.id) = some a := by
  induction store with
  | nil => cases ha
  | cons b t ih =>
    rw [List.map_cons, List.nodup_cons] at hnd
    rcases List.mem_cons.mp ha with rfl | hat
    · exact List.find?_cons_of_pos _ (by simp)
    · have hbid : ¬ (b.id == a.id) = true := by
        simp only [beq_iff_eq]
        intro h
        exact hnd.1 (h ▸ List.mem_map.mpr ⟨a, hat, rfl⟩)
      rw [@List.find?_cons_of_neg Atm (fun x => x.id == a.id) b t hbid]
      exact ih hnd.2 hat

theorem genAtm0_mem : genAtm0 ∈ generate_mock_atms 0 0 0 1 3 (fun _ => rand0) := by
  have hlat : (0 : ℚ) + (rand0.u_lat * 2 - 1) * (0 / 111000) = 0 := by
    norm_num [rand0]
  have hlng : (0 : ℚ) + (rand0.u_lng * 2 - 1) * (0 / (111000 * |(1 : ℚ)|)) = 0 := by
    norm_num [rand0]
  simp only [generate_mock_atms]
  refine List.mem_map.mpr ⟨0, by simp, ?_⟩
  simp only [hlat, hlng]
  decide

/-- C1, counterexample. The claim states that whenever some stored record's
`fetchedAt` is within the second request's 15-minute window, the second
request returns the full current store contents, equal to the first request's
result. Refuted: the first request (a cache miss under `env1`) writes a batch
whose last record is inserted one microsecond after the other four; the
second request under `env2` arrives so that its threshold falls between the
two timestamps. Some stored record is within the window (the `any` conjunct),
yet the handler returns only the one fresh record, not the five-record store,
because the hit path returns the `fetched_at >= threshold` query result
rather than the full table. -/
theorem c1_counterexample :
    ((get_atms env1 req0 []).2.any fun a =>
        decide (env2.now - FIFTEEN_MINUTES ≤ a.fetched_at)) = true ∧
    (get_atms env2 req0 (get_atms env1 req0 []).2).1 ≠
      AtmsResponse.ok (get_atms env1 req0 []).2 ∧
    (get_atms env2 req0 (get_atms env1 req0 []).2).1 ≠ (get_atms env1 req0 []).1 := by
  decide

/-- C1, amended. When EVERY record of the nonempty store has `fetched_at`
within both requests' 15-minute windows — the common case, since one refresh
writes all its records within microseconds — both requests return the full
store unchanged and equal to each other, with no filtering by either
request's lat, lng or radius (the conclusion does not depend on the request
parameters at all). -/
theorem c1_two_hits_return_full_store (ea eb : Env) (ra rb : Request)
    (store : List Atm) (h0 : store ≠ [])
    (hw1 : ra.WellFormed) (hw2 : rb.WellFormed)
    (hf1 : ∀ a ∈ store, ea.now - FIFTEEN_MINUTES ≤ a.fetched_at)
    (hf2 : ∀ a ∈ store, eb.now - FIFTEEN_MINUTES ≤ a.fetched_at) :
    get_atms ea ra store = (AtmsResponse.ok store, store) ∧
    get_atms eb rb (get_atms ea ra store).2 = (AtmsResponse.ok store, store) := by
  have h1 := get_atms_hit ea ra store hw1 h0 hf1
  refine ⟨h1, ?_⟩
  rw [h1]
  exact get_atms_hit eb rb store hw2 h0 hf2

/-- Witness for the amended C1 at concrete inputs. -/
theorem c1_witness :
    get_atms env0 req0 freshStore = (AtmsResponse.ok freshStore, freshStore) ∧
    get_atms envLater req0 (get_atms env0 req0 freshStore).2 =
      (AtmsResponse.ok freshStore, freshStore) :=
  c1_two_hits_return_full_store env0 envLater req0 req0 freshStore
    (by decide) (by decide) (by decide) (by decide) (by decide)

/-- C2. First conjunct: on a cache miss (no stored record within the
window), the handler's response and the post-request store are exactly the
inserted output of the generation run for this request — no record of any
earlier batch survives, since the result does not depend on `store` at all.
Second conjunct: over any process lifetime started from an empty store, the
store between requests is always either empty or exactly one refresh batch. -/
theorem c2_refresh_replaces_store (env : Env) (req : Request) (store : List Atm)
    (hw : req.WellFormed) (hn : 0 < env.num_atms)
    (hmiss : ∀ a ∈ store, a.fetched_at < env.now - FIFTEEN_MINUTES) :
    get_atms env req store =
      (AtmsResponse.ok (insertBatch (generate_mock_atms req.latVal req.lngVal
          (req.radiusVal : ℚ) (env.cos_fn req.latVal) env.num_atms env.rand)
          env.ins_times),
       insertBatch (generate_mock_atms req.latVal req.lngVal (req.radiusVal : ℚ)
          (env.cos_fn req.latVal) env.num_atms env.rand) env.ins_times) ∧
    ∀ evs, run_requests evs [] = [] ∨ IsRefreshBatch (run_requests evs []) :=
  ⟨get_atms_miss env req store hw hn hmiss, run_requests_inv⟩

/-- Witness for C2 at concrete inputs. -/
theorem c2_witness :
    get_atms env0 req0 [] =
      (AtmsResponse.ok (insertBatch (generate_mock_atms req0.latVal req0.lngVal
          (req0.radiusVal : ℚ) (env0.cos_fn req0.latVal) env0.num_atms env0.rand)
          env0.ins_times),
       insertBatch (generate_mock_atms req0.latVal req0.lngVal (req0.radiusVal : ℚ)
          (env0.cos_fn req0.latVal) env0.num_atms env0.rand) env0.ins_times) ∧
    ∀ evs, run_requests evs [] = [] ∨ IsRefreshBatch (run_requests evs []) :=
  c2_refresh_replaces_store env0 req0 [] (by decide) (by decide) (by simp)

/-- C3. On a cache miss, for any center whose cosine-oracle value exceeds
some positive epsilon in absolute value (and in fact for any center at all:
the bound is not used), the handler returns between 5 and 15 records
inclusive — the generated count, which `random.randint(5, 15)` constrains to
that interval. -/
theorem c3_miss_returns_5_to_15 (env : Env) (req : Request) (store : List Atm)
    (eps : ℚ) (heps : 0 < eps) (hcos : eps < |env.cos_fn req.latVal|)
    (hw : req.WellFormed) (h5 : 5 ≤ env.num_atms) (h15 : env.num_atms ≤ 15)
    (hmiss : ∀ a ∈ store, a.fetched_at < env.now - FIFTEEN_MINUTES) :
    ∃ l, get_atms env req store = (AtmsResponse.ok l, l) ∧
      5 ≤ l.length ∧ l.length ≤ 15 := by
  refine ⟨_, get_atms_miss env req store hw (by omega) hmiss, ?_⟩
  rw [insertBatch_length, generate_mock_atms_length]
  exact ⟨h5, h15⟩

/-- Witness for C3 at concrete inputs. -/
theorem c3_witness :
    ∃ l, get_atms env0 req0 [] = (AtmsResponse.ok l, l) ∧
      5 ≤ l.length ∧ l.length ≤ 15 :=
  c3_miss_returns_5_to_15 env0 req0 [] (1/2) (by norm_num)
    (by norm_num [env0]) (by decide) (by decide) (by decide) (by simp)

/-- C4, evaluation at the failing input. At latitude 89.999 the float cosine
value handed to generation is about 1.7453e-5, within the claim's epsilon
region (here epsilon = 1/1000) and nonzero. The claim says generation must
surface an InvalidGeometry error there; instead the handler succeeds,
generates all 5 records, and stores them — the code contains no degeneracy
check at all (src/app.py line 639 divides by the cosine unconditionally). -/
theorem c4_polar_no_error :
    (0 < envPolar.cos_fn reqPolar.latVal ∧
      envPolar.cos_fn reqPolar.latVal < 1 / 1000) ∧
    ∃ l, get_atms envPolar reqPolar [] = (AtmsResponse.ok l, l) ∧ l.length = 5 := by
  constructor
  · constructor <;> norm_num [envPolar, env0]
  · refine ⟨_, get_atms_miss envPolar reqPolar [] (by decide) (by decide) (by simp), ?_⟩
    rw [insertBatch_length, generate_mock_atms_length]
    rfl

/-- C5, evaluation at the failing execution. Starting from a nonempty stale
store, a cache-miss request whose insert-phase `db.session.commit()`
(src/app.py line 747) raises reports one error — but the store is left
EMPTY, not unchanged: the `ATM.query.delete()` of line 732 was already
committed by the separate `db.session.commit()` of line 733. The refresh is
therefore not atomic with respect to failure. -/
theorem c5_failed_insert_commit_empties_store :
    get_atms_fault env0 req0 staleStore true = (AtmsResponse.serverError, []) ∧
    staleStore ≠ [] := by
  decide

/-- C6. Every generated record's services list has length between 2 and 4
inclusive, contains no duplicates, and draws only from the fixed 6-entry
vocabulary — given the contracts of `random.randint(2, 4)` and
`random.sample`. -/
theorem c6_services_shape (lat lng radius c : ℚ) (count : ℕ)
    (rand : ℕ → AtmRand) (hr : ∀ i, (rand i).Valid) :
    ∀ a ∈ generate_mock_atms lat lng radius c count rand,
      2 ≤ a.services.length ∧ a.services.length ≤ 4 ∧ a.services.Nodup ∧
      ∀ s ∈ a.services, s ∈ all_services := by
  intro a ha
  simp only [generate_mock_atms, List.mem_map, List.mem_range] at ha
  obtain ⟨i, hi, rfl⟩ := ha
  obtain ⟨-, -, -, -, -, -, h2, h4⟩ := hr i
  dsimp only
  refine ⟨?_, ?_, sample_nodup _ _ _ (by decide),
    fun s hs => sample_subset _ _ _ s hs⟩
  · rw [sample_length]
    have h6 : all_services.length = 6 := rfl
    omega
  · rw [sample_length]
    have h6 : all_services.length = 6 := rfl
    omega

/-- Witness for C6 at a concrete generated record. -/
theorem c6_witness :
    2 ≤ genAtm0.services.length ∧ genAtm0.services.length ≤ 4 ∧
    genAtm0.services.Nodup ∧ ∀ s ∈ genAtm0.services, s ∈ all_services :=
  c6_services_shape 0 0 0 1 3 (fun _ => rand0)
    (fun _ => by norm_num [AtmRand.Valid, rand0]) genAtm0 genAtm0_mem

/-- C7. The generation algorithm uses a latitude span of `radius / 111000`
degrees and a longitude span of `radius / (111000 * |cos(radians lat)|)`
degrees (`c` being the cosine-oracle value for the center latitude); every
record's position is the center plus a random offset of the form
`(u * 2 - 1) * span` with `u` in `[0, 1)` independently per axis, so each
coordinate lies within the claimed closed interval `[-span, +span]` around
the center. Uniformity of the distribution is a property of `random.random`
and is not expressible in this embedding. -/
theorem c7_span_formulas (lat lng radius c : ℚ) (count : ℕ)
    (rand : ℕ → AtmRand) (hr : ∀ i, (rand i).Valid) (hrad : 0 ≤ radius) :
    ∀ a ∈ generate_mock_atms lat lng radius c count rand,
      (∃ u, 0 ≤ u ∧ u < 1 ∧ a.lat = lat + (u * 2 - 1) * (radius / 111000)) ∧
      (∃ v, 0 ≤ v ∧ v < 1 ∧
        a.lng = lng + (v * 2 - 1) * (radius / (111000 * |c|))) ∧
      |a.lat - lat| ≤ radius / 111000 ∧
      |a.lng - lng| ≤ radius / (111000 * |c|) := by
  intro a ha
  simp only [generate_mock_atms, List.mem_map, List.mem_range] at ha
  obtain ⟨i, hi, rfl⟩ := ha
  obtain ⟨hu0, hu1, hv0, hv1, -, -, -, -⟩ := hr i
  dsimp only
  have hs1 : (0 : ℚ) ≤ radius / 111000 := by positivity
  have hs2 : (0 : ℚ) ≤ radius / (111000 * |c|) :=
    div_nonneg hrad (by positivity)
  have hx : |(rand i).u_lat * 2 - 1| ≤ 1 := abs_le.mpr ⟨by linarith, by linarith⟩
  have hy : |(rand i).u_lng * 2 - 1| ≤ 1 := abs_le.mpr ⟨by linarith, by linarith⟩
  refine ⟨⟨(rand i).u_lat, hu0, hu1, rfl⟩, ⟨(rand i).u_lng, hv0, hv1, rfl⟩, ?_, ?_⟩
  · rw [add_sub_cancel_left, abs_mul, abs_of_nonneg hs1]
    exact mul_le_of_le_one_left hs1 hx
  · rw [add_sub_cancel_left, abs_mul, abs_of_nonneg hs2]
    exact mul_le_of_le_one_left hs2 hy

/-- Witness for C7 at a concrete generated record. -/
theorem c7_witness :
    (∃ u, 0 ≤ u ∧ u < 1 ∧ genAtm0.lat = 0 + (u * 2 - 1) * (0 / 111000)) ∧
    (∃ v, 0 ≤ v ∧ v < 1 ∧
      genAtm0.lng = 0 + (v * 2 - 1) * (0 / (111000 * |(1 : ℚ)|))) ∧
    |genAtm0.lat - 0| ≤ 0 / 111000 ∧
    |genAtm0.lng - 0| ≤ 0 / (111000 * |(1 : ℚ)|) :=
  c7_span_formulas 0 0 0 1 3 (fun _ => rand0)
    (fun _ => by norm_num [AtmRand.Valid, rand0]) (by norm_num) genAtm0 genAtm0_mem

/-- C8, counterexample. The claim states that a malformed (non-numeric)
parameter defaults and the request is processed normally. Refuted: with a
malformed `lat` the handler returns the 500 error response (the `float`
conversion raises and the `except` clause answers), and its result differs
from the same request with the defaulted value. -/
theorem c8_counterexample :
    (get_atms env0 ⟨Param.malformed, Param.num 0, Param.num 1000⟩ []).1 =
      AtmsResponse.serverError ∧
    get_atms env0 ⟨Param.malformed, Param.num 0, Param.num 1000⟩ [] ≠
      get_atms env0 ⟨Param.num 0, Param.num 0, Param.num 1000⟩ [] := by
  decide

/-- C8, amended. MISSING parameters default (`lat = 0`, `lng = 0`,
`radius = 1000`) and the request is processed exactly as if those values had
been passed; a MALFORMED parameter instead makes the request fail with the
500 error response, the store unchanged. -/
theorem c8_missing_defaults_malformed_errors (env : Env) (store : List Atm) :
    get_atms env ⟨Param.missing, Param.missing, Param.missing⟩ store =
      get_atms env ⟨Param.num 0, Param.num 0, Param.num DEFAULT_RADIUS⟩ store ∧
    (∀ p2 p3, get_atms env ⟨Param.malformed, p2, p3⟩ store =
      (AtmsResponse.serverError, store)) ∧
    (∀ p1 p3, get_atms env ⟨p1, Param.malformed, p3⟩ store =
      (AtmsResponse.serverError, store)) ∧
    (∀ p1 p2, get_atms env ⟨p1, p2, Param.malformed⟩ store =
      (AtmsResponse.serverError, store)) := by
  refine ⟨rfl, ?_, ?_, ?_⟩
  · intro p2 p3
    exact get_atms_malformed env _ store (by simp [Request.WellFormed])
  · intro p1 p3
    exact get_atms_malformed env _ store (by simp [Request.WellFormed])
  · intro p1 p2
    exact get_atms_malformed env _ store (by simp [Request.WellFormed])

/-- C9, counterexample. The claim states the absent case returns the body
`error: "not found"`. Refuted: the code returns the body
`error: "ATM not found"` (src/app.py line 779). -/
theorem c9_counterexample :
    get_atm 1 [] = DetailResponse.err 404 "ATM not found" ∧
    "ATM not found" ≠ "not found" := by
  decide

/-- C9, amended. For a store with pairwise distinct ids (which every refresh
batch has — third conjunct), the detail handler returns the stored record
itself (all fields equal) when the id is present, and a 404 with body
`error: "ATM not found"` when no stored record has the requested id. -/
theorem c9_detail_found_or_404 (store : List Atm)
    (hids : (store.map Atm.id).Nodup) :
    (∀ a ∈ store, get_atm a.id store = DetailResponse.ok a) ∧
    (∀ atm_id : ℕ, (∀ a ∈ store, a.id ≠ atm_id) →
      get_atm atm_id store = DetailResponse.err 404 "ATM not found") ∧
    ∀ batch ins_times, ((insertBatch batch ins_times).map Atm.id).Nodup := by
  refine ⟨?_, ?_, fun b t => insertBatch_ids_nodup b t⟩
  · intro a ha
    unfold get_atm
    rw [find?_id_of_mem hids ha]
  · intro atm_id h
    unfold get_atm
    have hnone : store.find? (fun a => a.id == atm_id) = none :=
      List.find?_eq_none.mpr fun a ha => by simpa using h a ha
    rw [hnone]

/-- Witness for the amended C9 at concrete inputs. -/
theorem c9_witness :
    (∀ a ∈ freshStore, get_atm a.id freshStore = DetailResponse.ok a) ∧
    (∀ atm_id : ℕ, (∀ a ∈ freshStore, a.id ≠ atm_id) →
      get_atm atm_id freshStore = DetailResponse.err 404 "ATM not found") ∧
    ∀ batch ins_times, ((insertBatch batch ins_times).map Atm.id).Nodup :=
  c9_detail_found_or_404 freshStore (by decide)

/-- C10. `generate_mock_atms` validates nothing and cannot fail: for every
center, radius and count (with nonzero cosine-oracle value, mirroring the
claim's hypothesis — the Python float cosine is never exactly zero), it
returns exactly `count` records, each with nonempty name, nonempty address
and nonempty services list. -/
theorem c10_generation_total (lat lng radius c : ℚ) (count : ℕ)
    (rand : ℕ → AtmRand) (hc : c ≠ 0) (hr : ∀ i, (rand i).Valid) :
    (generate_mock_atms lat lng radius c count rand).length = count ∧
    ∀ a ∈ generate_mock_atms lat lng radius c count rand,
      a.name ≠ "" ∧ a.address ≠ "" ∧ a.services ≠ [] := by
  refine ⟨generate_mock_atms_length _ _ _ _ _ _, ?_⟩
  intro a ha
  simp only [generate_mock_atms, List.mem_map, List.mem_range] at ha
  obtain ⟨i, hi, rfl⟩ := ha
  obtain ⟨-, -, -, -, -, -, h2, h4⟩ := hr i
  dsimp only
  refine ⟨?_, ?_, ?_⟩
  · intro h
    have hlen := congrArg String.length h
    rw [String.length_append] at hlen
    have h4len : (" ATM").length = 4 := rfl
    have h0len : ("").length = 0 := rfl
    omega
  · intro h
    have hlen := congrArg String.length h
    rw [String.length_append, String.length_append] at hlen
    have h1len : (" ").length = 1 := rfl
    have h0len : ("").length = 0 := rfl
    omega
  · apply List.ne_nil_of_length_pos
    rw [sample_length]
    have h6 : all_services.length = 6 := rfl
    omega

/-- Witness for C10 at concrete inputs. -/
theorem c10_witness :
    (generate_mock_atms 0 0 0 1 4 (fun _ => rand0)).length = 4 ∧
    ∀ a ∈ generate_mock_atms 0 0 0 1 4 (fun _ => rand0),
      a.name ≠ "" ∧ a.address ≠ "" ∧ a.services ≠ [] :=
  c10_generation_total 0 0 0 1 4 (fun _ => rand0) (by norm_num)
    (fun _ => by norm_num [AtmRand.Valid, rand0])

end AtmFinder
